import Mathlib

/-!
Verification development for the ConversationFlow dialogue driver of the
retell_intakeq repository (src/flows/conversationFlow.js). The JavaScript
class is shallowly embedded: the per-call mutable record becomes an explicit
`ConvState` value, each step handler becomes a pure function returning the
updated record together with `Option Response` (`none` models a thrown
exception, with the record reflecting every mutation applied before the
throw), and the ambient sources of nondeterminism (the wall clock used by
moment()/Date, and the Math.random() availability check) become fields of an
explicit `Env` parameter. The regular expressions of the extractors are
embedded as ordered-choice backtracking matchers with the same
leftmost-match, greedy-quantifier semantics the JS engine applies to these
particular patterns.
-/

namespace RetellIntakeQ

/-- message.toLowerCase() (ASCII, which is all the keyword tables use). -/
def toLowerStr (s : String) : String := String.mk (s.data.map Char.toLower)

/-- x.split(sep): separators dropped, n separators yield n+1 fields. -/
def splitFields (p : Char → Bool) : List Char → List (List Char)
  | [] => [[]]
  | c :: rest =>
    let r := splitFields p rest
    if p c then [] :: r
    else
      match r with
      | f :: fs => (c :: f) :: fs
      | [] => [[c]]

/-- Boolean prefix test on char lists. -/
def isPrefixOfB : List Char → List Char → Bool
  | [], _ => true
  | _ :: _, [] => false
  | a :: as, b :: bs => a = b && isPrefixOfB as bs

/-- Boolean infix test: sub occurs contiguously somewhere in the list. -/
def isInfixOfB (sub : List Char) : List Char → Bool
  | [] => isPrefixOfB sub []
  | c :: rest => isPrefixOfB sub (c :: rest) || isInfixOfB sub rest

/-- lowerMessage.includes(sub): substring containment on the char list. -/
def containsSub (s sub : String) : Bool := isInfixOfB sub.toList s.toList

/-- The characters the source's regexes can match for \s (ASCII whitespace). -/
def jsSpace (c : Char) : Bool :=
  c = ' ' || c = '\t' || c = '\n' || c = '\r' || c = '\x0b' || c = '\x0c'

/-- n.toString().padStart(2, Char.ofNat 48) for the minute field. -/
def pad2 (n : Nat) : String := if n < 10 then "0" ++ toString n else toString n

/-- Zero-pad a year to four digits (the YYYY format token). -/
def pad4 (n : Nat) : String :=
  if n < 10 then "000" ++ toString n
  else if n < 100 then "00" ++ toString n
  else if n < 1000 then "0" ++ toString n
  else toString n

/-- s.padStart(2, zero) on an already rendered number. -/
def padStart2 (s : String) : String :=
  if s.data.length < 2 then "0" ++ s else s

/-- Decimal value of a digit run. -/
def digitsToNat (ds : List Char) : Nat :=
  ds.foldl (fun acc c => acc * 10 + (c.toNat - 48)) 0

/-- Maximal leading digit run, none when empty (parseInt's NaN). -/
def digitsPrefix (cs : List Char) : Option Nat :=
  let ds := cs.takeWhile Char.isDigit
  if ds.isEmpty then none else some (digitsToNat ds)

/-- JS parseInt on a string: skip whitespace, optional sign, maximal decimal
digit prefix; none models NaN. -/
def jsParseInt (s : String) : Option Int :=
  match s.toList.dropWhile jsSpace with
  | '-' :: rest => (digitsPrefix rest).map (fun n => -(n : Int))
  | '+' :: rest => (digitsPrefix rest).map (fun n => (n : Int))
  | cs => (digitsPrefix cs).map (fun n => (n : Int))

/-- Consume exactly n digits, returning the rest of the input. -/
def matchDigits : Nat → List Char → Option (List Char)
  | 0, cs => some cs
  | _ + 1, [] => none
  | n + 1, c :: cs => if c.isDigit then matchDigits n cs else none

/-- Consume one [/\-] separator. -/
def matchSep : List Char → Option (List Char)
  | [] => none
  | c :: cs => if c = '/' || c = '-' then some cs else none

/-- Greedy \d{1,2} with backtracking into the continuation k. -/
def d12 (k : List Char → Option (List Char)) (cs : List Char) :
    Option (List Char) :=
  (matchDigits 2 cs >>= k) <|> (matchDigits 1 cs >>= k)

/-- First alternative of the date regex: \d{1,2}[/\-]\d{1,2}[/\-]\d{4}. -/
def dateAlt1 (cs : List Char) : Option (List Char) :=
  d12 (fun r1 => matchSep r1 >>=
    (fun r2 => d12 (fun r3 => matchSep r3 >>= matchDigits 4) r2)) cs

/-- Second alternative of the date regex: \d{4}[/\-]\d{1,2}[/\-]\d{1,2}. -/
def dateAlt2 (cs : List Char) : Option (List Char) :=
  matchDigits 4 cs >>= matchSep >>=
    d12 (fun r => matchSep r >>= d12 (fun r2 => some r2))

/-- Match length at this position of the source's date/dob pattern
(d{1,2}[/\-]d{1,2}[/\-]d{4} | d{4}[/\-]d{1,2}[/\-]d{1,2}). -/
def dateAltAt (cs : List Char) : Option Nat :=
  (dateAlt1 cs <|> dateAlt2 cs).map (fun rest => cs.length - rest.length)

/-- Greedy optional single character (x?): try consuming, else continue. -/
def optChar (p : Char → Bool) (k : List Char → Option (List Char)) :
    List Char → Option (List Char)
  | [] => k []
  | c :: r => if p c then (k r) <|> (k (c :: r)) else k (c :: r)

/-- A [-.\s] separator character of the phone regex. -/
def phoneSep (c : Char) : Bool := c = '-' || c = '.' || jsSpace c

/-- Tail of the phone regex after the optional prefix: the 3-3-4 digit
groups with optional parentheses and separators. -/
def phoneTail (cs : List Char) : Option (List Char) :=
  matchDigits 3 cs >>= fun r =>
    optChar (fun c => c = ')')
      (fun r2 => optChar phoneSep
        (fun r3 => matchDigits 3 r3 >>= fun r4 =>
          optChar phoneSep (fun r5 => matchDigits 4 r5) r4) r2) r

/-- Match length at this position of the phone regex
(\+?1?[-.\s]?)?\(?\d{3}\)?[-.\s]?\d{3}[-.\s]?\d{4} (the outer optional
group of three optional items is equivalent to the items inline). -/
def phoneAt (cs : List Char) : Option Nat :=
  (optChar (fun c => c = '+')
    (fun r1 => optChar (fun c => c = '1')
      (fun r2 => optChar phoneSep
        (fun r3 => optChar (fun c => c = '(') phoneTail r3) r2) r1)
    cs).map (fun rest => cs.length - rest.length)

/-- First alternative of the time regex: \d{1,2}:\d{2}. -/
def timeAlt1 (cs : List Char) : Option (List Char) :=
  d12 (fun r => match r with
    | ':' :: r2 => matchDigits 2 r2
    | _ => none) cs

/-- Second alternative of the time regex: \d{1,2}\s*(am|pm), /i flag. -/
def timeAlt2 (cs : List Char) : Option (List Char) :=
  d12 (fun r =>
    let r2 := r.dropWhile jsSpace
    match r2 with
    | a :: m :: rest =>
      if (a.toLower = 'a' || a.toLower = 'p') && m.toLower = 'm' then some rest
      else none
    | _ => none) cs

/-- Match length at this position of (\d{1,2}:\d{2}|\d{1,2}\s*(am|pm))/i. -/
def timeAltAt (cs : List Char) : Option Nat :=
  (timeAlt1 cs <|> timeAlt2 cs).map (fun rest => cs.length - rest.length)

/-- Leftmost match of a position matcher over the string: message.match(re)
with a non-global regex, returning match[0]. -/
def scanMatch (f : List Char → Option Nat) : List Char → Option String
  | [] => (f []).map (fun k => String.mk (List.take k []))
  | c :: rest =>
    match f (c :: rest) with
    | some k => some (String.mk (List.take k (c :: rest)))
    | none => scanMatch f rest

/-- Gregorian leap year. -/
def isLeapYear (y : Nat) : Bool := (y % 4 = 0 && y % 100 ≠ 0) || y % 400 = 0

/-- Days in a month, as the date validation of the JS engine applies it. -/
def daysInMonth (y m : Nat) : Nat :=
  if m = 2 then (if isLeapYear y then 29 else 28)
  else if m = 4 || m = 6 || m = 9 || m = 11 then 30
  else 31

/-- Modelled date parsing of moment(string) for strings shaped like the
source's date pattern: M/D/YYYY-style (month first, as V8's non-ISO date
parser reads it) or YYYY-M-D-style, separators / or -, with calendar
validation (month 1..12, day 1..daysInMonth); none models Invalid Date. -/
def parseDateParts (s : String) : Option (Nat × Nat × Nat) :=
  let fields := splitFields (fun c => c = '/' || c = '-') s.data
  match fields with
  | [f1, f2, f3] =>
    if f1.all Char.isDigit && f2.all Char.isDigit && f3.all Char.isDigit &&
        !f1.isEmpty && !f2.isEmpty && !f3.isEmpty then
      let a := digitsToNat f1
      let b := digitsToNat f2
      let c := digitsToNat f3
      if f1.length ≤ 2 && f2.length ≤ 2 && f3.length = 4 then
        -- month/day/year
        if 1 ≤ a && a ≤ 12 && 1 ≤ b && b ≤ daysInMonth c a then
          some (c, a, b)
        else none
      else if f1.length = 4 && f2.length ≤ 2 && f3.length ≤ 2 then
        -- year-month-day
        if 1 ≤ b && b ≤ 12 && 1 ≤ c && c ≤ daysInMonth a b then
          some (a, b, c)
        else none
      else none
    else none
  | _ => none

/-- moment(x).format applied with the YYYY-MM-DD token string: the padded
ISO date when x parses, the fixed string otherwise. -/
def momentFormatYMD (s : String) : String :=
  match parseDateParts s with
  | some (y, m, d) => pad4 y ++ "-" ++ pad2 m ++ "-" ++ pad2 d
  | none => "Invalid date"

/-- Days since 1970-01-01 of a civil date (Hinnant's algorithm, floor
division). -/
def daysFromCivil (y m d : Int) : Int :=
  let y' := if m ≤ 2 then y - 1 else y
  let era := Int.fdiv y' 400
  let yoe := y' - era * 400
  let mp := if 2 < m then m - 3 else m + 9
  let doy := Int.fdiv (153 * mp + 2) 5 + d - 1
  let doe := yoe * 365 + Int.fdiv yoe 4 - Int.fdiv yoe 100 + doy
  era * 146097 + doe - 719468

/-- Civil date (y, m, d) of a days-since-1970-01-01 count. -/
def civilFromDays (z : Int) : Int × Int × Int :=
  let z' := z + 719468
  let era := Int.fdiv z' 146097
  let doe := z' - era * 146097
  let yoe := Int.fdiv
    (doe - Int.fdiv doe 1460 + Int.fdiv doe 36524 - Int.fdiv doe 146096) 365
  let y := yoe + era * 400
  let doy := doe - (365 * yoe + Int.fdiv yoe 4 - Int.fdiv yoe 100)
  let mp := Int.fdiv (5 * doy + 2) 153
  let d := doy - Int.fdiv (153 * mp + 2) 5 + 1
  let m := if mp < 10 then mp + 3 else mp - 9
  (if m ≤ 2 then y + 1 else y, m, d)

/-- Day of week of an epoch day count: 0 = Sunday (1970-01-01 is a
Thursday). -/
def weekdayOfEpochDay (z : Int) : Nat := (Int.emod (z + 4) 7).toNat

/-- moment's dddd format token, already lowercased. -/
def weekdayNameLower : Nat → String
  | 0 => "sunday"
  | 1 => "monday"
  | 2 => "tuesday"
  | 3 => "wednesday"
  | 4 => "thursday"
  | 5 => "friday"
  | _ => "saturday"

/-- moment(date).format with the dddd token then toLowerCase(), for the
stored date argument (none models a null/undefined argument; an
unparseable string is moment's Invalid Date, whose dddd render lowercased
is the fixed string below). -/
def momentWeekdayLower : Option String → String
  | none => "invalid date"
  | some s =>
    match parseDateParts s with
    | none => "invalid date"
    | some (y, m, d) =>
      weekdayNameLower (weekdayOfEpochDay (daysFromCivil y m d))

/-- date.format applied with the YYYY-MM-DD token string to an epoch day. -/
def formatEpochDay (z : Int) : String :=
  let c := civilFromDays z
  pad4 c.1.toNat ++ "-" ++ pad2 c.2.1.toNat ++ "-" ++ pad2 c.2.2.toNat

/-- A {start, end} pair of a provider's weekly schedule (the source's `end`
field is `stop` here, `end` being a Lean keyword). -/
structure TimeRange where
  start : String
  stop : String
deriving DecidableEq

/-- One value of the PROVIDER_SCHEDULES configuration object; `schedule`
is none when the JSON entry has no schedule field (reading a day off an
undefined schedule then throws). -/
structure ProviderEntry where
  name : Option String
  schedule : Option (List (String × TimeRange))
deriving DecidableEq

/-- A provider object as getAvailableProviders builds it. -/
structure Provider where
  id : String
  name : String
  schedule : Option (List (String × TimeRange))
deriving DecidableEq

/-- clientInfo as simulateVerification returns it. -/
structure ClientInfo where
  id : String
  name : String
  phone : Option String
  dateOfBirth : Option String
deriving DecidableEq

/-- simulateInsuranceVerification's result object. -/
structure InsuranceResult where
  verified : Bool
  provider : String
  copay : Nat
  deductible : Nat
  deductibleMet : Bool
deriving DecidableEq

/-- The selectedSlot object of handleTimeSelection's response. -/
structure Slot where
  provider : Option Provider
  date : Option String
  time : String
  type : Option String
deriving DecidableEq

/-- One conversationHistory entry; the ISO timestamp is an abstract Nat. -/
structure HistEntry where
  role : String
  content : String
  timestamp : Nat
deriving DecidableEq

/-- The per-call conversation record of initializeConversation. -/
structure ConvState where
  callId : String
  step : String
  clientVerified : Bool
  clientInfo : Option ClientInfo
  insuranceVerified : Bool
  insuranceInfo : Option InsuranceResult
  appointmentType : Option String
  preferredProvider : Option Provider
  preferredDate : Option String
  preferredTime : Option String
  availableSlots : List String
  selectedSlot : Option Slot
  conversationHistory : List HistEntry
  startTime : Nat
  lastActivity : Nat
deriving DecidableEq

/-- The appointmentDetails object of handleInsuranceVerification. -/
structure AppointmentDetails where
  type : Option String
  provider : String
  date : Option String
  time : Option String
  copay : Nat
deriving DecidableEq

/-- A handler response object: `none` in an optional field models the
field being absent from the JS object literal. -/
structure Response where
  message : String
  nextStep : String
  requiresVerification : Option Bool := none
  requiresTransfer : Option Bool := none
  options : Option (List String) := none
  clientInfo : Option ClientInfo := none
  appointmentType : Option String := none
  providers : Option (List Provider) := none
  provider : Option Provider := none
  availableDates : Option (List String) := none
  date : Option String := none
  availableTimes : Option (List String) := none
  selectedSlot : Option Slot := none
  insuranceInfo : Option InsuranceResult := none
  appointmentDetails : Option AppointmentDetails := none
  appointmentId : Option String := none
  confirmationSent : Option Bool := none
  error : Option String := none
  selfPayOption : Option Bool := none
deriving DecidableEq

/-- The ambient environment of one processMessage turn: the configuration
read in the constructor, the wall clock (as an epoch-day for moment() and a
Nat tick for timestamps and Date.now()), and the Math.random() outcome of
checkTimeAvailability. -/
structure Env where
  providerSchedules : List (String × ProviderEntry)
  lunchBreakStart : String := "13:00"
  lunchBreakEnd : String := "14:00"
  today : Int
  timeAvailable : Bool
  now : Nat
deriving DecidableEq

/-- The updates object passed to updateConversationState: a present field
(some) overwrites the record's field, an absent one (none) leaves it. -/
structure StateUpdates where
  step : Option String := none
  clientVerified : Option Bool := none
  clientInfo : Option (Option ClientInfo) := none
  insuranceVerified : Option Bool := none
  insuranceInfo : Option (Option InsuranceResult) := none
  appointmentType : Option (Option String) := none
  preferredProvider : Option (Option Provider) := none
  preferredDate : Option (Option String) := none
  preferredTime : Option (Option String) := none

/-- extractVerificationData's result. -/
structure VerificationData where
  phoneNumber : Option String
  dateOfBirth : Option String
deriving DecidableEq

/-- simulateVerification's result object. -/
structure IdVerification where
  verified : Bool
  clientInfo : ClientInfo
deriving DecidableEq

/-- createAppointment's simulated result object. -/
structure AppointmentResult where
  success : Bool
  appointmentId : String
  message : String
deriving DecidableEq

/-- detectIntent: case-insensitive keyword containment in fixed priority
order, defaulting to general. -/
def detectIntent (message : String) : String :=
  let m := toLowerStr message
  if containsSub m "schedule" || containsSub m "book" ||
      containsSub m "appointment" then "schedule"
  else if containsSub m "reschedule" || containsSub m "change" then
    "reschedule"
  else if containsSub m "cancel" then "cancel"
  else "general"

/-- extractVerificationData: leftmost phone-regex and dob-regex matches. -/
def extractVerificationData (message : String) : VerificationData :=
  { phoneNumber := scanMatch phoneAt message.toList,
    dateOfBirth := scanMatch dateAltAt message.toList }

/-- simulateVerification: always verified, fixed mock client. -/
def simulateVerification (vd : VerificationData) : IdVerification :=
  { verified := true,
    clientInfo := { id := "client_001", name := "John Doe",
                    phone := vd.phoneNumber, dateOfBirth := vd.dateOfBirth } }

/-- detectAppointmentType: keyword match into the closed type set. -/
def detectAppointmentType (message : String) : Option String :=
  let m := toLowerStr message
  if containsSub m "comprehensive" || containsSub m "evaluation" then
    some "comprehensive_evaluation"
  else if containsSub m "follow" || containsSub m "follow-up" then
    some "follow_up"
  else if containsSub m "ketamine" then some "ketamine_consultation"
  else none

/-- Key lookup in the parsed PROVIDER_SCHEDULES object. -/
def lookupEntry (cfg : List (String × ProviderEntry)) (k : String) :
    Option ProviderEntry :=
  (cfg.find? (fun p => p.1 = k)).map Prod.snd

/-- getAvailableProviders: pushes Charles Maddix and Ava Suleiman always and
Dr. Soto for follow_up; `none` models the TypeError thrown when the
configuration lacks the corresponding entry (its .schedule is read). -/
def getAvailableProviders (cfg : List (String × ProviderEntry))
    (appointmentType : Option String) : Option (List Provider) :=
  match lookupEntry cfg "charles_maddix" with
  | none => none
  | some cm =>
    match lookupEntry cfg "ava_suleiman" with
    | none => none
    | some av =>
      let base : List Provider :=
        [{ id := "charles_maddix", name := "Charles Maddix",
           schedule := cm.schedule },
         { id := "ava_suleiman", name := "Ava Suleiman",
           schedule := av.schedule }]
      if appointmentType = some "follow_up" then
        match lookupEntry cfg "dr_soto" with
        | none => none
        | some ds =>
          some (base ++ [{ id := "dr_soto", name := "Dr. Soto",
                           schedule := ds.schedule }])
      else some base

/-- detectProviderSelection: first provider whose display name or id occurs
in the lowercased message; the outer none models the throw of the inner
getAvailableProviders call. -/
def detectProviderSelection (cfg : List (String × ProviderEntry))
    (message : String) (appointmentType : Option String) :
    Option (Option Provider) :=
  (getAvailableProviders cfg appointmentType).map (fun providers =>
    providers.find? (fun p =>
      containsSub (toLowerStr message) (toLowerStr p.name) ||
      containsSub (toLowerStr message) (toLowerStr p.id)))

/-- Day-of-week lookup in a weekly schedule object. -/
def lookupDay (sched : List (String × TimeRange)) (day : String) :
    Option TimeRange :=
  (sched.find? (fun p => p.1 = day)).map Prod.snd

/-- getAvailableDates: the next 30 days (starting tomorrow) on which the
provider's weekly schedule defines hours, formatted YYYY-MM-DD; none models
the throw on a null provider or an undefined schedule. -/
def getAvailableDates (env : Env) : Option Provider → Option (List String)
  | none => none
  | some p =>
    match p.schedule with
    | none => none
    | some sched =>
      some (((List.range 30).map (fun i => env.today + (i : Int) + 1)).filterMap
        (fun z =>
          if (lookupDay sched (weekdayNameLower (weekdayOfEpochDay z))).isSome
          then some (formatEpochDay z) else none))

/-- detectDateSelection: leftmost date-pattern match piped through
moment(...).format with the YYYY-MM-DD tokens (which yields the literal
string Invalid date when the matched text is not a calendar date). -/
def detectDateSelection (message : String) : Option String :=
  (scanMatch dateAltAt message.toList).map momentFormatYMD

/-- parseInt(x.split on colon [0]): the hour field of an HH:MM string. -/
def parseHourField (s : String) : Option Int :=
  jsParseInt (String.mk ((splitFields (fun c => c = ':') s.data).headD []))

/-- n iterations of the source's hour loop starting at x. -/
def hourRangeAux : Int → Nat → List Int
  | _, 0 => []
  | x, n + 1 => x :: hourRangeAux (x + 1) n

/-- The inclusive-exclusive integer range of the source's for loop. -/
def hourRange (a b : Int) : List Int := hourRangeAux a (b - a).toNat

/-- hour >= lunchStart && hour < lunchEnd with parseInt's NaN semantics
(any comparison against NaN is false, so an unparseable bound disables the
lunch skip). -/
def inLunch (env : Env) (h : Int) : Bool :=
  match parseHourField env.lunchBreakStart, parseHourField env.lunchBreakEnd with
  | some l, some u => decide (l ≤ h) && decide (h < u)
  | _, _ => false

/-- The four 15-minute slot strings of one hour. -/
def slotsForHour (h : Int) : List String :=
  [0, 15, 30, 45].map (fun m => padStart2 (toString h) ++ ":" ++ pad2 m)

/-- getAvailableTimes: 15-minute slots from the parsed start hour to the
parsed end hour (exclusive), skipping lunch hours; none models the throw on
a null provider or undefined schedule; an unscheduled day, or an
unparseable hour (parseInt NaN ending the loop immediately), yields []. -/
def getAvailableTimes (env : Env) (provider : Option Provider)
    (date : Option String) : Option (List String) :=
  match provider with
  | none => none
  | some p =>
    match p.schedule with
    | none => none
    | some sched =>
      match lookupDay sched (momentWeekdayLower date) with
      | none => some []
      | some tr =>
        match parseHourField tr.start, parseHourField tr.stop with
        | some a, some b =>
          some ((((hourRange a b).filter (fun h => !(inLunch env h))).map
            slotsForHour).flatten)
        | _, _ => some []

/-- detectTimeSelection: leftmost time-pattern match. -/
def detectTimeSelection (message : String) : Option String :=
  scanMatch timeAltAt message.toList

/-- The fixed accepted-insurer keyword list. -/
def acceptedProvidersList : List String :=
  ["aetna", "blue cross blue shield", "cigna", "medicare", "tricare"]

/-- extractInsuranceInfo: the first accepted insurer occurring in the
lowercased message (so an unaccepted insurer name can never be returned). -/
def extractInsuranceInfo (message : String) : Option String :=
  acceptedProvidersList.find? (fun p => containsSub (toLowerStr message) p)

/-- isAcceptedInsurance: some accepted keyword occurs in the lowercased
candidate. -/
def isAcceptedInsurance (provider : String) : Bool :=
  acceptedProvidersList.any (fun accepted =>
    containsSub (toLowerStr provider) accepted)

/-- simulateInsuranceVerification: always verified, fixed copay. -/
def simulateInsuranceVerification (provider : String) : InsuranceResult :=
  { verified := true, provider := provider, copay := 25,
    deductible := 1000, deductibleMet := false }

/-- detectConfirmation: affirmative keywords before negative ones. -/
def detectConfirmation (message : String) : Option String :=
  let m := toLowerStr message
  if containsSub m "yes" || containsSub m "correct" || containsSub m "right"
  then some "yes"
  else if containsSub m "no" || containsSub m "incorrect" ||
      containsSub m "wrong" then some "no"
  else none

/-- createAppointment: simulated success with a Date.now()-based id. -/
def createAppointment (now : Nat) : AppointmentResult :=
  { success := true, appointmentId := "apt_" ++ toString now,
    message := "Appointment created successfully" }

/-- The initial record initializeConversation stores for a new call. -/
def initializeConversation (callId : String) (now : Nat) : ConvState :=
  { callId := callId, step := "greeting", clientVerified := false,
    clientInfo := none, insuranceVerified := false, insuranceInfo := none,
    appointmentType := none, preferredProvider := none,
    preferredDate := none, preferredTime := none, availableSlots := [],
    selectedSlot := none, conversationHistory := [], startTime := now,
    lastActivity := now }

/-- updateConversationState: Object.assign of the updates onto the record,
then lastActivity is refreshed. -/
def updateConversationState (now : Nat) (s : ConvState) (u : StateUpdates) :
    ConvState :=
  { s with
    step := u.step.getD s.step,
    clientVerified := u.clientVerified.getD s.clientVerified,
    clientInfo := u.clientInfo.getD s.clientInfo,
    insuranceVerified := u.insuranceVerified.getD s.insuranceVerified,
    insuranceInfo := u.insuranceInfo.getD s.insuranceInfo,
    appointmentType := u.appointmentType.getD s.appointmentType,
    preferredProvider := u.preferredProvider.getD s.preferredProvider,
    preferredDate := u.preferredDate.getD s.preferredDate,
    preferredTime := u.preferredTime.getD s.preferredTime,
    lastActivity := now }

/-- addToHistory: pushes a history entry; the source does not touch
lastActivity here. -/
def addToHistory (now : Nat) (s : ConvState) (role content : String) :
    ConvState :=
  { s with conversationHistory :=
      s.conversationHistory ++ [⟨role, content, now⟩] }

/-- How a JS template literal renders an optional string (null prints as
the four-letter word). -/
def showOpt : Option String → String
  | some s => s
  | none => "null"

/-- handleGreeting: schedule/reschedule/cancel advance to verification,
anything else re-offers the menu and stays. -/
def handleGreeting (env : Env) (s : ConvState) (userMessage : String) :
    ConvState × Option Response :=
  let intent := detectIntent userMessage
  if intent = "schedule" then
    (updateConversationState env.now s { step := some "verification" },
     some { message := "Hello! I'm Matt from The Practice psychiatric wellness clinic. I'd be happy to help you schedule an appointment. For your security and HIPAA compliance, I need to verify your identity. Could you please provide your phone number and date of birth?",
            nextStep := "verification", requiresVerification := some true })
  else if intent = "reschedule" then
    (updateConversationState env.now s { step := some "verification" },
     some { message := "Hello! I'm Matt from The Practice. I can help you reschedule your appointment. For your security, I need to verify your identity first. Could you please provide your phone number and date of birth?",
            nextStep := "verification", requiresVerification := some true })
  else if intent = "cancel" then
    (updateConversationState env.now s { step := some "verification" },
     some { message := "Hello! I'm Matt from The Practice. I can help you cancel your appointment. For your security, I need to verify your identity first. Could you please provide your phone number and date of birth?",
            nextStep := "verification", requiresVerification := some true })
  else
    (s, some { message := "Hello! I'm Matt from The Practice psychiatric wellness clinic. How can I help you today? I can assist with scheduling, rescheduling, or canceling appointments.",
               nextStep := "greeting",
               options := some ["Schedule appointment",
                 "Reschedule appointment", "Cancel appointment"] })

/-- handleVerification: re-prompt unless both fields extracted; the
simulated verification always succeeds and advances to appointment_type. -/
def handleVerification (env : Env) (s : ConvState) (userMessage : String) :
    ConvState × Option Response :=
  let vd := extractVerificationData userMessage
  match vd.phoneNumber, vd.dateOfBirth with
  | some _, some _ =>
    let vr := simulateVerification vd
    if vr.verified then
      (updateConversationState env.now s
        { clientVerified := some true, clientInfo := some (some vr.clientInfo),
          step := some "appointment_type" },
       some { message := "Thank you, " ++ vr.clientInfo.name ++ ". I've verified your identity. What type of appointment would you like to schedule?",
              nextStep := "appointment_type",
              clientInfo := some vr.clientInfo,
              options := some ["Comprehensive evaluation (60 minutes)",
                "Follow-up (15 minutes)", "Ketamine consultation (30 minutes)"] })
    else
      (s, some { message := "I'm sorry, but I couldn't verify your identity with the information provided. For your security, I cannot access your information. Would you like me to transfer you to our front desk?",
                 nextStep := "verification_failed",
                 requiresTransfer := some true })
  | _, _ =>
    (s, some { message := "I need both your phone number and date of birth to verify your identity. Please provide both pieces of information.",
               nextStep := "verification", requiresVerification := some true })

/-- handleAppointmentType: stores the detected type and advances before
getAvailableProviders runs (whose throw therefore leaves the update in
place). -/
def handleAppointmentType (env : Env) (s : ConvState) (userMessage : String) :
    ConvState × Option Response :=
  match detectAppointmentType userMessage with
  | none =>
    (s, some { message := "I didn't catch that. What type of appointment would you like? You can choose from: Comprehensive evaluation (60 minutes), Follow-up (15 minutes), or Ketamine consultation (30 minutes).",
               nextStep := "appointment_type",
               options := some ["Comprehensive evaluation", "Follow-up",
                 "Ketamine consultation"] })
  | some t =>
    let s1 := updateConversationState env.now s
      { appointmentType := some (some t), step := some "provider_selection" }
    match getAvailableProviders env.providerSchedules (some t) with
    | none => (s1, none)
    | some ps =>
      (s1, some { message := "Great! You've selected a " ++ t ++ ". Which provider would you prefer?",
                  nextStep := "provider_selection",
                  appointmentType := some t, providers := some ps,
                  options := some (ps.map Provider.name) })

/-- handleProviderSelection. -/
def handleProviderSelection (env : Env) (s : ConvState)
    (userMessage : String) : ConvState × Option Response :=
  match detectProviderSelection env.providerSchedules userMessage
      s.appointmentType with
  | none => (s, none)
  | some none =>
    match getAvailableProviders env.providerSchedules s.appointmentType with
    | none => (s, none)
    | some ps =>
      (s, some { message := "I didn't catch that. Which provider would you prefer?",
                 nextStep := "provider_selection", providers := some ps,
                 options := some (ps.map Provider.name) })
  | some (some p) =>
    let s1 := updateConversationState env.now s
      { preferredProvider := some (some p), step := some "date_selection" }
    match getAvailableDates env (some p) with
    | none => (s1, none)
    | some ds =>
      (s1, some { message := "Perfect! You've selected " ++ p.name ++ ". What date would work best for you?",
                  nextStep := "date_selection", provider := some p,
                  availableDates := some ds, options := some (ds.take 5) })

/-- handleDateSelection: whatever non-null string detectDateSelection hands
back (a normalized date or the literal Invalid date) is stored. -/
def handleDateSelection (env : Env) (s : ConvState) (userMessage : String) :
    ConvState × Option Response :=
  match detectDateSelection userMessage with
  | none =>
    match getAvailableDates env s.preferredProvider with
    | none => (s, none)
    | some ds =>
      (s, some { message := "I didn't catch that date. What date would work best for you?",
                 nextStep := "date_selection", availableDates := some ds,
                 options := some (ds.take 5) })
  | some d =>
    let s1 := updateConversationState env.now s
      { preferredDate := some (some d), step := some "time_selection" }
    match getAvailableTimes env s.preferredProvider (some d) with
    | none => (s1, none)
    | some ts =>
      (s1, some { message := "Great! You've selected " ++ d ++ ". What time would work best for you?",
                  nextStep := "time_selection", date := some d,
                  availableTimes := some ts, options := some (ts.take 5) })

/-- handleTimeSelection: stores only preferredTime in the record; the
selected slot object appears only in the response. -/
def handleTimeSelection (env : Env) (s : ConvState) (userMessage : String) :
    ConvState × Option Response :=
  match detectTimeSelection userMessage with
  | none =>
    match getAvailableTimes env s.preferredProvider s.preferredDate with
    | none => (s, none)
    | some ts =>
      (s, some { message := "I didn't catch that time. What time would work best for you?",
                 nextStep := "time_selection", availableTimes := some ts,
                 options := some (ts.take 5) })
  | some t =>
    if env.timeAvailable then
      let s1 := updateConversationState env.now s
        { preferredTime := some (some t), step := some "insurance_verification" }
      let sl : Slot := { provider := s.preferredProvider,
                         date := s.preferredDate, time := t,
                         type := s.appointmentType }
      (s1, some { message := "Perfect! You've selected " ++ t ++ " on " ++ showOpt s.preferredDate ++ ". Now I need to verify your insurance information. What insurance provider do you have?",
                  nextStep := "insurance_verification",
                  selectedSlot := some sl })
    else
      match getAvailableTimes env s.preferredProvider s.preferredDate with
      | none => (s, none)
      | some ts =>
        (s, some { message := "I'm sorry, that time slot is no longer available. Here are the available times:",
                   nextStep := "time_selection", availableTimes := some ts,
                   options := some (ts.take 5) })

/-- handleInsuranceVerification: the verified branch mutates the record
before building its message, which reads preferredProvider.name and throws
on a null provider (the mutation then persists). -/
def handleInsuranceVerification (env : Env) (s : ConvState)
    (userMessage : String) : ConvState × Option Response :=
  match extractInsuranceInfo userMessage with
  | none =>
    (s, some { message := "What insurance provider do you have? We accept Aetna, Blue Cross Blue Shield, Cigna, Medicare, and Tricare.",
               nextStep := "insurance_verification",
               options := some ["Aetna", "Blue Cross Blue Shield", "Cigna",
                 "Medicare", "Tricare"] })
  | some prov =>
    if !(isAcceptedInsurance prov) then
      (s, some { message := "I'm sorry, but we don't accept " ++ prov ++ ". We accept Aetna, Blue Cross Blue Shield, Cigna, Medicare, and Tricare. Would you like to proceed with self-pay?",
                 nextStep := "insurance_verification",
                 selfPayOption := some true,
                 options := some ["Yes, self-pay",
                   "No, let me check my insurance"] })
    else
      let vr := simulateInsuranceVerification prov
      if vr.verified then
        let s1 := updateConversationState env.now s
          { insuranceVerified := some true, insuranceInfo := some (some vr),
            step := some "confirmation" }
        match s.preferredProvider with
        | none => (s1, none)
        | some pp =>
          let det : AppointmentDetails := { type := s.appointmentType,
                                            provider := pp.name,
                                            date := s.preferredDate,
                                            time := s.preferredTime,
                                            copay := vr.copay }
          (s1, some { message := "Great! I've verified your " ++ prov ++ " insurance. Your copay will be $" ++ toString vr.copay ++ ". Let me confirm your appointment details: " ++ showOpt s.appointmentType ++ " with " ++ pp.name ++ " on " ++ showOpt s.preferredDate ++ " at " ++ showOpt s.preferredTime ++ ". Is this correct?",
                      nextStep := "confirmation", insuranceInfo := some vr,
                      appointmentDetails := some det })
      else
        (s, some { message := "I'm having trouble verifying your " ++ prov ++ " insurance. Would you like to proceed with self-pay, or would you prefer to call back later?",
                   nextStep := "insurance_verification",
                   selfPayOption := some true,
                   options := some ["Self-pay", "Call back later"] })

/-- handleConfirmation. -/
def handleConfirmation (env : Env) (s : ConvState) (userMessage : String) :
    ConvState × Option Response :=
  let c := detectConfirmation userMessage
  if c = some "yes" then
    let ar := createAppointment env.now
    if ar.success then
      (updateConversationState env.now s { step := some "completed" },
       some { message := "Perfect! Your appointment has been scheduled. You'll receive a confirmation email and text message. Is there anything else I can help you with?",
              nextStep := "completed", appointmentId := some ar.appointmentId,
              confirmationSent := some true })
    else
      (s, some { message := "I'm sorry, there was an issue scheduling your appointment. Let me try again or would you prefer to speak with our front desk?",
                 nextStep := "confirmation", error := none })
  else if c = some "no" then
    (s, some { message := "No problem! Let me know what you'd like to change about your appointment.",
               nextStep := "modification",
               options := some ["Change provider", "Change date",
                 "Change time", "Change appointment type"] })
  else
    (s, some { message := "I didn't catch that. Is the appointment information correct?",
               nextStep := "confirmation", options := some ["Yes", "No"] })

/-- handleGeneralInquiry (the default switch branch). -/
def handleGeneralInquiry : Response :=
  { message := "I'm here to help with appointment scheduling. Would you like to schedule, reschedule, or cancel an appointment?",
    nextStep := "greeting",
    options := some ["Schedule appointment", "Reschedule appointment",
      "Cancel appointment"] }

/-- getErrorResponse: the fixed generic transfer-to-human response. -/
def getErrorResponse : Response :=
  { message := "I'm sorry, I'm having trouble processing your request. Let me transfer you to our front desk for assistance.",
    nextStep := "error", requiresTransfer := some true }

/-- The step switch of processMessage. The rescheduling and cancellation
cases call methods the class does not define, so they throw a TypeError
(none) without mutating the record. -/
def dispatchStep (env : Env) (s : ConvState) (msg : String) :
    ConvState × Option Response :=
  if s.step = "greeting" then handleGreeting env s msg
  else if s.step = "verification" then handleVerification env s msg
  else if s.step = "appointment_type" then handleAppointmentType env s msg
  else if s.step = "provider_selection" then
    handleProviderSelection env s msg
  else if s.step = "date_selection" then handleDateSelection env s msg
  else if s.step = "time_selection" then handleTimeSelection env s msg
  else if s.step = "insurance_verification" then
    handleInsuranceVerification env s msg
  else if s.step = "confirmation" then handleConfirmation env s msg
  else if s.step = "rescheduling" then (s, none)
  else if s.step = "cancellation" then (s, none)
  else (s, some handleGeneralInquiry)

/-- processMessage on a call with an existing record: append the user
message to history, dispatch on the current step, then append the agent
response; a throw anywhere in the handler is caught and converted to
getErrorResponse, skipping the agent append and keeping every mutation
made before the throw. -/
def processMessage (env : Env) (s : ConvState) (userMessage : String) :
    ConvState × Response :=
  let s1 := addToHistory env.now s "user" userMessage
  match dispatchStep env s1 userMessage with
  | (s2, some r) => (addToHistory env.now s2 "agent" r.message, r)
  | (s2, none) => (s2, getErrorResponse)

/-- Records reachable from initialization through processMessage turns
alone (arbitrary per-turn environments and utterances). -/
inductive Reachable : ConvState → Prop where
  | init (callId : String) (now : Nat) : Reachable (initializeConversation callId now)
  | step (env : Env) (msg : String) (s : ConvState) :
      Reachable s → Reachable (processMessage env s msg).1

/-- A slot selection has been made: provider, date and time all chosen. -/
def SlotChosen (s : ConvState) : Prop :=
  s.preferredProvider ≠ none ∧ s.preferredDate ≠ none ∧ s.preferredTime ≠ none

/-- The inductive invariant behind claim C7: insurance verification
presupposes identity verification and a full slot selection, and each
mid-flow step presupposes what its predecessors established. -/
def Inv (s : ConvState) : Prop :=
  (s.insuranceVerified = true → s.clientVerified = true ∧ SlotChosen s) ∧
  (s.step = "insurance_verification" →
    s.clientVerified = true ∧ SlotChosen s) ∧
  (s.step = "time_selection" → s.clientVerified = true ∧
    s.preferredProvider ≠ none ∧ s.preferredDate ≠ none) ∧
  (s.step = "date_selection" → s.clientVerified = true ∧
    s.preferredProvider ≠ none) ∧
  (s.step = "provider_selection" → s.clientVerified = true) ∧
  (s.step = "appointment_type" → s.clientVerified = true)

/-- Fold of processMessage over a list of (environment, utterance) turns. -/
def runConv (s : ConvState) : List (Env × String) → ConvState
  | [] => s
  | (e, m) :: rest => runConv (processMessage e s m).1 rest

/-- Every turn of the list is valid: its handler returns a response rather
than throwing. -/
def turnsOK (s : ConvState) : List (Env × String) → Bool
  | [] => true
  | (e, m) :: rest =>
    ((dispatchStep e (addToHistory e.now s "user" m) m).2).isSome &&
      turnsOK (processMessage e s m).1 rest

/-- Spec-side reading (for claim C5) of a slot or schedule bound as minutes
since midnight: hour and minute fields of an H:MM string. -/
def timeToMinutesSpec (s : String) : Option Int :=
  match splitFields (fun c => c = ':') s.data with
  | [h, m] =>
    match digitsPrefix h, digitsPrefix m with
    | some hv, some mv =>
      if h.all Char.isDigit && m.all Char.isDigit then
        some ((hv : Int) * 60 + (mv : Int))
      else none
    | _, _ => none
  | _ => none

/-- Spec-side statement (for claim C5) that a slot lies within the
schedule's [start, end) window, both read as clock times. -/
def specSlotInRangeB (tr : TimeRange) (slot : String) : Bool :=
  match timeToMinutesSpec tr.start, timeToMinutesSpec tr.stop,
      timeToMinutesSpec slot with
  | some a, some b, some x => decide (a ≤ x) && decide (x < b)
  | _, _, _ => false

/-- A weekly schedule with the same hours every day, for concrete runs. -/
def schedAll : List (String × TimeRange) :=
  ["sunday", "monday", "tuesday", "wednesday", "thursday", "friday",
    "saturday"].map (fun d => (d, { start := "09:00", stop := "11:00" }))

/-- A fully populated PROVIDER_SCHEDULES configuration. -/
def cfgFull : List (String × ProviderEntry) :=
  [("charles_maddix",
    { name := some "Charles Maddix", schedule := some schedAll }),
   ("ava_suleiman",
    { name := some "Ava Suleiman", schedule := some schedAll }),
   ("dr_soto", { name := some "Dr. Soto", schedule := some schedAll })]

/-- A turn environment over the full configuration. -/
def envRun : Env :=
  { providerSchedules := cfgFull, today := 0, timeAvailable := true, now := 7 }

/-- A turn environment over the default empty configuration
(PROVIDER_SCHEDULES unset). -/
def envEmpty : Env :=
  { providerSchedules := [], today := 0, timeAvailable := true, now := 100 }

/-- Utterances of a complete happy-path conversation. -/
def wMsgs : List String :=
  ["I want to schedule an appointment",
   "my number is 5551234567 and I was born 01/02/1970",
   "follow up please",
   "charles maddix",
   "01/02/1970",
   "10:00",
   "aetna",
   "yes, that is correct"]

/-- The record after the first n turns of the happy-path conversation. -/
def wState : Nat → ConvState
  | 0 => initializeConversation "call_w" 0
  | n + 1 => (processMessage envRun (wState n) (wMsgs.getD n "")).1

/-- The happy-path conversation as (environment, utterance) turns. -/
def wTurns : List (Env × String) := wMsgs.map (fun m => (envRun, m))

/-- A record sitting at the appointment_type step (identity verified). -/
def stateAtAppointmentType : ConvState :=
  { callId := "call_a", step := "appointment_type", clientVerified := true,
    clientInfo := some { id := "client_001", name := "John Doe",
                         phone := some "5551234567",
                         dateOfBirth := some "01/02/1970" },
    insuranceVerified := false, insuranceInfo := none,
    appointmentType := none, preferredProvider := none,
    preferredDate := none, preferredTime := none, availableSlots := [],
    selectedSlot := none, conversationHistory := [], startTime := 0,
    lastActivity := 5 }

/-- A provider built over the all-week schedule. -/
def providerFull : Provider :=
  { id := "charles_maddix", name := "Charles Maddix",
    schedule := some schedAll }

/-- A record sitting at the date_selection step. -/
def stateAtDate : ConvState :=
  { stateAtAppointmentType with
    step := "date_selection",
    appointmentType := some "follow_up",
    preferredProvider := some providerFull, callId := "call_d" }

/-- A record sitting at the time_selection step. -/
def stateAtTime : ConvState :=
  { stateAtDate with
    step := "time_selection",
    preferredDate := some "1970-01-02", callId := "call_t" }

/-- A record sitting at the insurance_verification step. -/
def stateAtInsurance : ConvState :=
  { stateAtTime with
    step := "insurance_verification",
    preferredTime := some "10:00", callId := "call_i" }

/-- A provider whose Monday hours start on the half hour, as the
repository's own documented PROVIDER_SCHEDULES examples do. -/
def providerHalfHour : Provider :=
  { id := "charles_maddix", name := "Charles Maddix",
    schedule := some [("monday", { start := "10:30", stop := "12:00" })] }

section Lemmas

@[simp] lemma addToHistory_step (now : Nat) (s : ConvState) (r c : String) :
    (addToHistory now s r c).step = s.step := rfl

@[simp] lemma addToHistory_clientVerified (now : Nat) (s : ConvState)
    (r c : String) :
    (addToHistory now s r c).clientVerified = s.clientVerified := rfl

@[simp] lemma addToHistory_insuranceVerified (now : Nat) (s : ConvState)
    (r c : String) :
    (addToHistory now s r c).insuranceVerified = s.insuranceVerified := rfl

@[simp] lemma addToHistory_appointmentType (now : Nat) (s : ConvState)
    (r c : String) :
    (addToHistory now s r c).appointmentType = s.appointmentType := rfl

@[simp] lemma addToHistory_preferredProvider (now : Nat) (s : ConvState)
    (r c : String) :
    (addToHistory now s r c).preferredProvider = s.preferredProvider := rfl

@[simp] lemma addToHistory_preferredDate (now : Nat) (s : ConvState)
    (r c : String) :
    (addToHistory now s r c).preferredDate = s.preferredDate := rfl

@[simp] lemma addToHistory_preferredTime (now : Nat) (s : ConvState)
    (r c : String) :
    (addToHistory now s r c).preferredTime = s.preferredTime := rfl

@[simp] lemma addToHistory_selectedSlot (now : Nat) (s : ConvState)
    (r c : String) :
    (addToHistory now s r c).selectedSlot = s.selectedSlot := rfl

@[simp] lemma addToHistory_lastActivity (now : Nat) (s : ConvState)
    (r c : String) :
    (addToHistory now s r c).lastActivity = s.lastActivity := rfl

@[simp] lemma addToHistory_history (now : Nat) (s : ConvState)
    (r c : String) :
    (addToHistory now s r c).conversationHistory =
      s.conversationHistory ++ [⟨r, c, now⟩] := rfl

@[simp] lemma updateConversationState_history (now : Nat) (s : ConvState)
    (u : StateUpdates) :
    (updateConversationState now s u).conversationHistory =
      s.conversationHistory := rfl

end Lemmas

/-- C1: at step greeting, an utterance whose intent classifies as schedule,
reschedule or cancel moves the stored record's step to verification and the
response carries nextStep verification with requiresVerification true; a
general utterance leaves the stored step at greeting. -/
theorem C1_greeting_transitions (env : Env) (s : ConvState) (msg : String)
    (hstep : s.step = "greeting") :
    ((detectIntent msg = "schedule" ∨ detectIntent msg = "reschedule" ∨
        detectIntent msg = "cancel") →
      (processMessage env s msg).1.step = "verification" ∧
      (processMessage env s msg).2.nextStep = "verification" ∧
      (processMessage env s msg).2.requiresVerification = some true) ∧
    (detectIntent msg = "general" →
      (processMessage env s msg).1.step = "greeting") := by
  have hd : dispatchStep env (addToHistory env.now s "user" msg) msg =
      handleGreeting env (addToHistory env.now s "user" msg) msg := by
    unfold dispatchStep
    simp [hstep]
  unfold processMessage
  dsimp only
  rw [hd]
  unfold handleGreeting
  by_cases h1 : detectIntent msg = "schedule"
  · constructor
    · intro _
      simp [h1, updateConversationState]
    · intro hg
      exact absurd (h1.symm.trans hg) (by decide)
  · by_cases h2 : detectIntent msg = "reschedule"
    · constructor
      · intro _
        simp [h1, h2, updateConversationState]
      · intro hg
        exact absurd (h2.symm.trans hg) (by decide)
    · by_cases h3 : detectIntent msg = "cancel"
      · constructor
        · intro _
          simp [h1, h2, h3, updateConversationState]
        · intro hg
          exact absurd (h3.symm.trans hg) (by decide)
      · constructor
        · intro h
          rcases h with h | h | h <;> contradiction
        · intro _
          simp [h1, h2, h3, hstep]

/-- Witness for C1 at a concrete scheduling utterance. -/
theorem C1_witness :
    (processMessage envRun (initializeConversation "call_w" 0)
        "I want to schedule an appointment").1.step = "verification" ∧
    (processMessage envRun (initializeConversation "call_w" 0)
        "I want to schedule an appointment").2.nextStep = "verification" ∧
    (processMessage envRun (initializeConversation "call_w" 0)
        "I want to schedule an appointment").2.requiresVerification =
      some true :=
  (C1_greeting_transitions envRun (initializeConversation "call_w" 0)
      "I want to schedule an appointment" rfl).1 (Or.inl (by decide))

section HistoryPreservation

lemma handleGreeting_hist (env : Env) (s : ConvState) (m : String) :
    (handleGreeting env s m).1.conversationHistory = s.conversationHistory := by
  unfold handleGreeting
  dsimp only
  split_ifs <;> rfl

lemma handleVerification_hist (env : Env) (s : ConvState) (m : String) :
    (handleVerification env s m).1.conversationHistory =
      s.conversationHistory := by
  unfold handleVerification
  dsimp only
  repeat' split
  all_goals rfl

lemma handleAppointmentType_hist (env : Env) (s : ConvState) (m : String) :
    (handleAppointmentType env s m).1.conversationHistory =
      s.conversationHistory := by
  unfold handleAppointmentType
  dsimp only
  repeat' split
  all_goals rfl

lemma handleProviderSelection_hist (env : Env) (s : ConvState) (m : String) :
    (handleProviderSelection env s m).1.conversationHistory =
      s.conversationHistory := by
  unfold handleProviderSelection
  dsimp only
  repeat' split
  all_goals rfl

lemma handleDateSelection_hist (env : Env) (s : ConvState) (m : String) :
    (handleDateSelection env s m).1.conversationHistory =
      s.conversationHistory := by
  unfold handleDateSelection
  dsimp only
  repeat' split
  all_goals rfl

lemma handleTimeSelection_hist (env : Env) (s : ConvState) (m : String) :
    (handleTimeSelection env s m).1.conversationHistory =
      s.conversationHistory := by
  unfold handleTimeSelection
  dsimp only
  repeat' split
  all_goals rfl

lemma handleInsuranceVerification_hist (env : Env) (s : ConvState)
    (m : String) :
    (handleInsuranceVerification env s m).1.conversationHistory =
      s.conversationHistory := by
  unfold handleInsuranceVerification
  dsimp only
  repeat' split
  all_goals rfl

lemma handleConfirmation_hist (env : Env) (s : ConvState) (m : String) :
    (handleConfirmation env s m).1.conversationHistory =
      s.conversationHistory := by
  unfold handleConfirmation
  dsimp only
  repeat' split
  all_goals rfl

/-- No step handler writes conversationHistory: only the driver appends. -/
lemma dispatchStep_hist (env : Env) (s : ConvState) (m : String) :
    (dispatchStep env s m).1.conversationHistory = s.conversationHistory := by
  unfold dispatchStep
  split_ifs
  · exact handleGreeting_hist env s m
  · exact handleVerification_hist env s m
  · exact handleAppointmentType_hist env s m
  · exact handleProviderSelection_hist env s m
  · exact handleDateSelection_hist env s m
  · exact handleTimeSelection_hist env s m
  · exact handleInsuranceVerification_hist env s m
  · exact handleConfirmation_hist env s m
  · rfl
  · rfl
  · rfl

end HistoryPreservation

/-- C2 (counterexample): with the default empty provider configuration, a
"follow up" utterance at the appointment_type step makes the handler throw
inside getAvailableProviders; the driver returns the generic error
response, yet the stored record is not the one from before the message:
the user history entry and the pre-throw update both persist. -/
theorem C2_counterexample :
    (processMessage envEmpty stateAtAppointmentType "follow up").2 =
      getErrorResponse ∧
    (processMessage envEmpty stateAtAppointmentType "follow up").1 ≠
      stateAtAppointmentType := by
  constructor
  · decide
  · decide

/-- C2 (amended): when a step handler throws during processMessage, the
driver returns the fixed generic transfer-to-human error response, but the
stored record is not rolled back: it keeps the appended user history entry
(and any handler mutation applied before the throw; no agent entry is
appended). -/
theorem C2_throw_error_response (env : Env) (s : ConvState) (msg : String)
    (hthrow :
      (dispatchStep env (addToHistory env.now s "user" msg) msg).2 = none) :
    (processMessage env s msg).2 = getErrorResponse ∧
    (processMessage env s msg).2.requiresTransfer = some true ∧
    (processMessage env s msg).1.conversationHistory =
      s.conversationHistory ++ [⟨"user", msg, env.now⟩] := by
  have h2 := dispatchStep_hist env (addToHistory env.now s "user" msg) msg
  unfold processMessage
  dsimp only
  rcases hds : dispatchStep env (addToHistory env.now s "user" msg) msg
    with ⟨s2, r⟩
  rw [hds] at h2 hthrow
  simp only at hthrow
  subst hthrow
  refine ⟨rfl, rfl, ?_⟩
  simpa using h2

/-- Witness for C2's amended statement at the concrete throwing turn. -/
theorem C2_witness :
    (processMessage envEmpty stateAtAppointmentType "follow up").2 =
        getErrorResponse ∧
    (processMessage envEmpty stateAtAppointmentType
        "follow up").2.requiresTransfer = some true ∧
    (processMessage envEmpty stateAtAppointmentType
        "follow up").1.conversationHistory =
      stateAtAppointmentType.conversationHistory ++
        [⟨"user", "follow up", envEmpty.now⟩] :=
  C2_throw_error_response envEmpty stateAtAppointmentType "follow up"
    (by decide)

/-- C3 (counterexample): an utterance naming the unaccepted insurer
UnitedHealthcare at insurance_verification does not get a self-pay offer:
the extractor returns no insurer at all, so the handler re-prompts without
selfPayOption (the step does stay). -/
theorem C3_counterexample :
    extractInsuranceInfo "I have UnitedHealthcare coverage" = none ∧
    (processMessage envRun stateAtInsurance
        "I have UnitedHealthcare coverage").2.selfPayOption = none ∧
    (processMessage envRun stateAtInsurance
        "I have UnitedHealthcare coverage").1.step =
      "insurance_verification" := by
  refine ⟨by decide, by decide, by decide⟩

/-- C3 (amended): at insurance_verification, an utterance from which no
insurer is extracted — which is what happens for every insurer name outside
the accepted list, since the extractor only recognizes accepted names —
yields the enumerating re-prompt without selfPayOption, and the record's
step stays insurance_verification; every insurer the extractor can return
passes isAcceptedInsurance, so the self-pay branch for unaccepted insurers
is unreachable. -/
theorem C3_unaccepted_reprompt (env : Env) (s : ConvState) (msg : String)
    (hstep : s.step = "insurance_verification")
    (hnone : extractInsuranceInfo msg = none) :
    (processMessage env s msg).2.selfPayOption = none ∧
    (processMessage env s msg).2.nextStep = "insurance_verification" ∧
    (processMessage env s msg).1.step = "insurance_verification" ∧
    (∀ m p, extractInsuranceInfo m = some p →
      isAcceptedInsurance p = true) := by
  have hd : dispatchStep env (addToHistory env.now s "user" msg) msg =
      handleInsuranceVerification env (addToHistory env.now s "user" msg)
        msg := by
    unfold dispatchStep
    simp [hstep]
  unfold processMessage
  dsimp only
  rw [hd]
  unfold handleInsuranceVerification
  rw [hnone]
  refine ⟨rfl, rfl, by simp [hstep], ?_⟩
  intro m p hp
  have hmem : p ∈ acceptedProvidersList := List.mem_of_find?_eq_some hp
  simp only [acceptedProvidersList, List.mem_cons, List.mem_singleton,
    List.not_mem_nil, or_false] at hmem
  rcases hmem with rfl | rfl | rfl | rfl | rfl <;> decide

/-- Witness for C3's amended statement at a concrete unrecognized
utterance. -/
theorem C3_witness :
    (processMessage envRun stateAtInsurance
        "it is called Humana").2.selfPayOption = none ∧
    (processMessage envRun stateAtInsurance
        "it is called Humana").2.nextStep = "insurance_verification" ∧
    (processMessage envRun stateAtInsurance
        "it is called Humana").1.step = "insurance_verification" ∧
    (∀ m p, extractInsuranceInfo m = some p →
      isAcceptedInsurance p = true) :=
  C3_unaccepted_reprompt envRun stateAtInsurance "it is called Humana" rfl
    (by decide)

/-- C4 (counterexample): a successful time-selection turn stores
preferredTime and advances the step, but leaves the stored record's
selectedSlot untouched (none) — the slot object appears only in the
response. -/
theorem C4_counterexample :
    detectTimeSelection "10:00 works" = some "10:00" ∧
    envRun.timeAvailable = true ∧
    (processMessage envRun stateAtTime "10:00 works").1.preferredTime =
      some "10:00" ∧
    (processMessage envRun stateAtTime "10:00 works").1.step =
      "insurance_verification" ∧
    (processMessage envRun stateAtTime "10:00 works").1.selectedSlot =
      none := by
  decide

/-- C4 (amended): a time_selection turn whose utterance parses to a time
and whose availability check succeeds stores preferredTime and advances
the step to insurance_verification; the record's selectedSlot is left
unchanged, and the selected slot is returned only in the response's
selectedSlot field. -/
theorem C4_time_success (env : Env) (s : ConvState) (msg t : String)
    (hstep : s.step = "time_selection")
    (ht : detectTimeSelection msg = some t)
    (hav : env.timeAvailable = true) :
    (processMessage env s msg).1.preferredTime = some t ∧
    (processMessage env s msg).1.step = "insurance_verification" ∧
    (processMessage env s msg).1.selectedSlot = s.selectedSlot ∧
    (processMessage env s msg).2.selectedSlot =
      some { provider := s.preferredProvider, date := s.preferredDate,
             time := t, type := s.appointmentType } := by
  have hd : dispatchStep env (addToHistory env.now s "user" msg) msg =
      handleTimeSelection env (addToHistory env.now s "user" msg) msg := by
    unfold dispatchStep
    simp [hstep]
  unfold processMessage
  dsimp only
  rw [hd]
  unfold handleTimeSelection
  rw [ht]
  simp [hav, updateConversationState]

/-- Witness for C4's amended statement at a concrete turn. -/
theorem C4_witness :
    (processMessage envRun stateAtTime "make it 10:00").1.preferredTime =
      some "10:00" ∧
    (processMessage envRun stateAtTime "make it 10:00").1.step =
      "insurance_verification" ∧
    (processMessage envRun stateAtTime "make it 10:00").1.selectedSlot =
      stateAtTime.selectedSlot ∧
    (processMessage envRun stateAtTime "make it 10:00").2.selectedSlot =
      some { provider := stateAtTime.preferredProvider,
             date := stateAtTime.preferredDate, time := "10:00",
             type := stateAtTime.appointmentType } :=
  C4_time_success envRun stateAtTime "make it 10:00" "10:00" rfl (by decide)
    rfl

/-- Membership in n loop iterations from x. -/
lemma mem_hourRangeAux {x : Int} {n : Nat} {h : Int} :
    h ∈ hourRangeAux x n ↔ x ≤ h ∧ h < x + n := by
  induction n generalizing x with
  | zero =>
    simp only [hourRangeAux, List.not_mem_nil, false_iff]
    omega
  | succ n ih =>
    simp only [hourRangeAux, List.mem_cons, ih]
    push_cast
    omega

/-- Membership in the for-loop's hour range. -/
lemma mem_hourRange {a b h : Int} : h ∈ hourRange a b ↔ a ≤ h ∧ h < b := by
  unfold hourRange
  rw [mem_hourRangeAux]
  omega

/-- C5 (counterexample): with the half-hour Monday schedule the
repository's own configuration examples use (start 10:30), the slot 10:00
is returned although it lies before the schedule start read as a clock
time — so not every returned slot lies in [scheduleStart, scheduleEnd). -/
theorem C5_counterexample :
    "10:00" ∈ (getAvailableTimes envRun (some providerHalfHour)
      (some "2024-12-23")).getD [] ∧
    specSlotInRangeB { start := "10:30", stop := "12:00" } "10:00" =
      false := by
  decide

/-- C5 (amended): every slot getAvailableTimes returns has an hour h with
parsedStartHour ≤ h < parsedEndHour — the code compares whole hours only,
discarding the minutes of the configured start/end — and h never lies in
[lunchStartHour, lunchEndHour). -/
theorem C5_slot_bounds (env : Env) (p : Provider) (date : Option String)
    (sched : List (String × TimeRange)) (tr : TimeRange) (ts : List String)
    (t : String) (a b l u : Int)
    (hs : p.schedule = some sched)
    (hl : lookupDay sched (momentWeekdayLower date) = some tr)
    (ha : parseHourField tr.start = some a)
    (hb : parseHourField tr.stop = some b)
    (hls : parseHourField env.lunchBreakStart = some l)
    (hle : parseHourField env.lunchBreakEnd = some u)
    (hts : getAvailableTimes env (some p) date = some ts)
    (hmem : t ∈ ts) :
    ∃ h m, t = padStart2 (toString h) ++ ":" ++ pad2 m ∧
      a ≤ h ∧ h < b ∧ m ∈ [0, 15, 30, 45] ∧ ¬(l ≤ h ∧ h < u) := by
  unfold getAvailableTimes at hts
  dsimp only at hts
  rw [hs] at hts
  dsimp only at hts
  rw [hl] at hts
  dsimp only at hts
  rw [ha, hb] at hts
  dsimp only at hts
  have hts' := Option.some.inj hts
  subst hts'
  rcases List.mem_flatten.1 hmem with ⟨l', hl', ht'⟩
  rcases List.mem_map.1 hl' with ⟨h, hh, rfl⟩
  rcases List.mem_filter.1 hh with ⟨hhr, hnl⟩
  rcases List.mem_map.1 ht' with ⟨m, hm, rfl⟩
  refine ⟨h, m, rfl, (mem_hourRange.1 hhr).1, (mem_hourRange.1 hhr).2,
    hm, ?_⟩
  unfold inLunch at hnl
  rw [hls, hle] at hnl
  simp at hnl
  omega

/-- Witness for C5's amended statement at a concrete slot. -/
theorem C5_witness :
    ∃ h m, "09:15" = padStart2 (toString h) ++ ":" ++ pad2 m ∧
      (9 : Int) ≤ h ∧ h < 11 ∧ m ∈ [0, 15, 30, 45] ∧
      ¬((13 : Int) ≤ h ∧ h < 14) :=
  C5_slot_bounds envRun providerFull (some "1970-01-02") schedAll
    { start := "09:00", stop := "11:00" }
    ((getAvailableTimes envRun (some providerFull)
      (some "1970-01-02")).getD []) "09:15" 9 11 13 14 (by decide)
    (by decide) (by decide) (by decide) (by decide) (by decide) (by decide)
    (by decide)

/-- C6 (counterexample): appending a history entry is a mutation of the
stored record (the record changes) that does not refresh lastActivity:
after addToHistory at time 99 the record still carries its old
lastActivity of 5. -/
theorem C6_counterexample :
    addToHistory 99 stateAtAppointmentType "user" "hi" ≠
      stateAtAppointmentType ∧
    (addToHistory 99 stateAtAppointmentType "user" "hi").lastActivity =
      stateAtAppointmentType.lastActivity ∧
    stateAtAppointmentType.lastActivity ≠ 99 := by
  decide

/-- C6 (amended): the shallow-merge path updateConversationState refreshes
lastActivity on every call, but the history-append path addToHistory
mutates the record (appending the entry) without touching lastActivity. -/
theorem C6_lastActivity_refresh (now : Nat) (s : ConvState)
    (u : StateUpdates) (role content : String) :
    (updateConversationState now s u).lastActivity = now ∧
    (addToHistory now s role content).lastActivity = s.lastActivity ∧
    (addToHistory now s role content).conversationHistory =
      s.conversationHistory ++ [⟨role, content, now⟩] :=
  ⟨rfl, rfl, rfl⟩

section Invariant

lemma inv_addToHistory (now : Nat) (s : ConvState) (r c : String)
    (h : Inv s) : Inv (addToHistory now s r c) := by
  unfold Inv SlotChosen at *
  simpa using h

lemma inv_handleGreeting (env : Env) (s : ConvState) (m : String)
    (h : Inv s) : Inv (handleGreeting env s m).1 := by
  unfold handleGreeting
  dsimp only
  split_ifs <;>
    first
      | exact h
      | · unfold Inv SlotChosen updateConversationState at *
          simp_all

lemma inv_handleVerification (env : Env) (s : ConvState) (m : String)
    (h : Inv s) : Inv (handleVerification env s m).1 := by
  unfold handleVerification
  dsimp only
  cases hp : (extractVerificationData m).phoneNumber with
  | none => exact h
  | some pn =>
    cases hdob : (extractVerificationData m).dateOfBirth with
    | none => exact h
    | some db =>
      unfold Inv SlotChosen updateConversationState simulateVerification at *
      simp_all

lemma inv_handleAppointmentType (env : Env) (s : ConvState) (m : String)
    (hstep : s.step = "appointment_type") (h : Inv s) :
    Inv (handleAppointmentType env s m).1 := by
  unfold handleAppointmentType
  dsimp only
  cases hat : detectAppointmentType m with
  | none => exact h
  | some t =>
    cases hgp : getAvailableProviders env.providerSchedules (some t) with
    | none =>
      unfold Inv SlotChosen updateConversationState at *
      simp_all
    | some ps =>
      unfold Inv SlotChosen updateConversationState at *
      simp_all

lemma inv_handleProviderSelection (env : Env) (s : ConvState) (m : String)
    (hstep : s.step = "provider_selection") (h : Inv s) :
    Inv (handleProviderSelection env s m).1 := by
  unfold handleProviderSelection
  dsimp only
  cases hdp : detectProviderSelection env.providerSchedules m
      s.appointmentType with
  | none => exact h
  | some op =>
    cases op with
    | none =>
      cases hgp : getAvailableProviders env.providerSchedules
          s.appointmentType with
      | none => exact h
      | some ps => exact h
    | some p =>
      cases hgd : getAvailableDates env (some p) with
      | none =>
        unfold Inv SlotChosen updateConversationState at *
        simp_all
      | some ds =>
        unfold Inv SlotChosen updateConversationState at *
        simp_all

lemma inv_handleDateSelection (env : Env) (s : ConvState) (m : String)
    (hstep : s.step = "date_selection") (h : Inv s) :
    Inv (handleDateSelection env s m).1 := by
  unfold handleDateSelection
  dsimp only
  cases hdd : detectDateSelection m with
  | none =>
    cases hgd : getAvailableDates env s.preferredProvider with
    | none => exact h
    | some ds => exact h
  | some d =>
    cases hgt : getAvailableTimes env s.preferredProvider (some d) with
    | none =>
      unfold Inv SlotChosen updateConversationState at *
      simp_all
    | some ts =>
      unfold Inv SlotChosen updateConversationState at *
      simp_all

lemma inv_handleTimeSelection (env : Env) (s : ConvState) (m : String)
    (hstep : s.step = "time_selection") (h : Inv s) :
    Inv (handleTimeSelection env s m).1 := by
  unfold handleTimeSelection
  dsimp only
  cases hdt : detectTimeSelection m with
  | none =>
    cases hgt : getAvailableTimes env s.preferredProvider s.preferredDate with
    | none => exact h
    | some ts => exact h
  | some t =>
    by_cases hav : env.timeAvailable
    · simp only [hav, if_true]
      unfold Inv SlotChosen updateConversationState at *
      simp_all
    · simp only [hav, if_false]
      cases hgt : getAvailableTimes env s.preferredProvider
          s.preferredDate with
      | none => exact h
      | some ts => exact h

lemma inv_handleInsuranceVerification (env : Env) (s : ConvState)
    (m : String) (hstep : s.step = "insurance_verification") (h : Inv s) :
    Inv (handleInsuranceVerification env s m).1 := by
  unfold handleInsuranceVerification
  dsimp only
  cases hei : extractInsuranceInfo m with
  | none => exact h
  | some prov =>
    by_cases hacc : isAcceptedInsurance prov
    · simp only [hacc, Bool.not_true, if_false]
      cases hpp : s.preferredProvider with
      | none =>
        unfold Inv SlotChosen updateConversationState
          simulateInsuranceVerification at *
        simp_all
      | some pp =>
        unfold Inv SlotChosen updateConversationState
          simulateInsuranceVerification at *
        simp_all
    · simp only [hacc, Bool.not_false, if_true]
      exact h

lemma inv_handleConfirmation (env : Env) (s : ConvState) (m : String)
    (h : Inv s) : Inv (handleConfirmation env s m).1 := by
  unfold handleConfirmation
  dsimp only
  split_ifs <;>
    first
      | exact h
      | · unfold Inv SlotChosen updateConversationState createAppointment at *
          simp_all

set_option maxHeartbeats 1000000 in
lemma inv_dispatch (env : Env) (s : ConvState) (m : String) (h : Inv s) :
    Inv (dispatchStep env s m).1 := by
  unfold dispatchStep
  split_ifs with h1 h2 h3 h4 h5 h6 h7 h8 h9 h10
  · exact inv_handleGreeting env s m h
  · exact inv_handleVerification env s m h
  · exact inv_handleAppointmentType env s m h3 h
  · exact inv_handleProviderSelection env s m h4 h
  · exact inv_handleDateSelection env s m h5 h
  · exact inv_handleTimeSelection env s m h6 h
  · exact inv_handleInsuranceVerification env s m h7 h
  · exact inv_handleConfirmation env s m h
  · exact h
  · exact h
  · exact h

lemma inv_processMessage (env : Env) (s : ConvState) (m : String)
    (h : Inv s) : Inv (processMessage env s m).1 := by
  unfold processMessage
  dsimp only
  rcases hds : dispatchStep env (addToHistory env.now s "user" m) m
    with ⟨s2, r⟩
  have h2 : Inv s2 := by
    have h3 := inv_dispatch env (addToHistory env.now s "user" m) m
      (inv_addToHistory env.now s "user" m h)
    rw [hds] at h3
    exact h3
  cases r with
  | none => exact h2
  | some rr => exact inv_addToHistory env.now s2 "agent" rr.message h2

lemma inv_init (cid : String) (now : Nat) :
    Inv (initializeConversation cid now) := by
  unfold Inv SlotChosen initializeConversation
  simp

lemma inv_reachable (s : ConvState) (h : Reachable s) : Inv s := by
  induction h with
  | init cid now => exact inv_init cid now
  | step env msg s hs ih => exact inv_processMessage env s msg ih

end Invariant

/-- C7: in every record reachable from initialization through the dialogue
driver's message processing alone, insuranceVerified is true only if
clientVerified is true and a slot selection (preferred provider, date and
time) has already been made. -/
theorem C7_insuranceVerified_requires (s : ConvState) (hr : Reachable s)
    (hins : s.insuranceVerified = true) :
    s.clientVerified = true ∧ s.preferredProvider ≠ none ∧
    s.preferredDate ≠ none ∧ s.preferredTime ≠ none := by
  have h := inv_reachable s hr
  rcases h.1 hins with ⟨hc, hp, hd, ht⟩
  exact ⟨hc, hp, hd, ht⟩

/-- The concrete happy-path record after seven turns is reachable. -/
lemma wReachable : ∀ n : Nat, Reachable (wState n)
  | 0 => Reachable.init "call_w" 0
  | n + 1 => Reachable.step envRun (wMsgs.getD n "") (wState n)
      (wReachable n)

/-- Witness for C7 at the record of the happy-path run right after its
insurance-verification turn. -/
theorem C7_witness :
    (wState 7).clientVerified = true ∧
    (wState 7).preferredProvider ≠ none ∧
    (wState 7).preferredDate ≠ none ∧
    (wState 7).preferredTime ≠ none :=
  C7_insuranceVerified_requires (wState 7) (wReachable 7) (by decide)

/-- A non-throwing turn appends exactly the user entry then the agent
entry to the stored history. -/
lemma processMessage_hist_ok (e : Env) (s : ConvState) (m : String)
    (r : Response)
    (hok : (dispatchStep e (addToHistory e.now s "user" m) m).2 = some r) :
    (processMessage e s m).1.conversationHistory =
      s.conversationHistory ++
        [⟨"user", m, e.now⟩, ⟨"agent", r.message, e.now⟩] := by
  have h2 := dispatchStep_hist e (addToHistory e.now s "user" m) m
  unfold processMessage
  dsimp only
  rcases hds : dispatchStep e (addToHistory e.now s "user" m) m with ⟨s2, r'⟩
  rw [hds] at h2 hok
  simp only at hok
  subst hok
  simp only at h2
  dsimp only
  rw [addToHistory_history, h2]
  simp

/-- Histories accumulated over any all-valid run, relative to the starting
record. -/
lemma runConv_hist (turns : List (Env × String)) :
    ∀ s : ConvState, turnsOK s turns = true →
      (runConv s turns).conversationHistory.map HistEntry.role =
        s.conversationHistory.map HistEntry.role ++
          (List.replicate turns.length ["user", "agent"]).flatten ∧
      ((runConv s turns).conversationHistory.filter
          (fun e => e.role == "user")).map HistEntry.content =
        ((s.conversationHistory.filter (fun e => e.role == "user")).map
          HistEntry.content) ++ turns.map Prod.snd ∧
      (runConv s turns).conversationHistory.length =
        s.conversationHistory.length + 2 * turns.length := by
  induction turns with
  | nil =>
    intro s _
    simp [runConv]
  | cons t rest ih =>
    rcases t with ⟨e, m⟩
    intro s hok
    unfold turnsOK at hok
    rw [Bool.and_eq_true] at hok
    obtain ⟨h1, h2⟩ := hok
    rcases Option.isSome_iff_exists.1 h1 with ⟨r, hr⟩
    have hstep := processMessage_hist_ok e s m r hr
    have ihh := ih (processMessage e s m).1 h2
    unfold runConv
    refine ⟨?_, ?_, ?_⟩
    · rw [ihh.1, hstep]
      simp [List.replicate_succ]
    · rw [ihh.2.1, hstep]
      simp
    · rw [ihh.2.2, hstep]
      simp
      omega

/-- C8: a sequence of n valid (non-throwing) turns taking a call from its
initialization at greeting to the completed step leaves conversationHistory
with exactly 2n entries, alternating user then agent in insertion order,
the user entries carrying the n utterances in order. -/
theorem C8_history_round_trip (callId : String) (now0 : Nat)
    (turns : List (Env × String))
    (hok : turnsOK (initializeConversation callId now0) turns = true)
    (hdone : (runConv (initializeConversation callId now0) turns).step =
      "completed") :
    (runConv (initializeConversation callId now0)
        turns).conversationHistory.length = 2 * turns.length ∧
    (runConv (initializeConversation callId now0)
        turns).conversationHistory.map HistEntry.role =
      (List.replicate turns.length ["user", "agent"]).flatten ∧
    ((runConv (initializeConversation callId now0)
        turns).conversationHistory.filter
        (fun e => e.role == "user")).map HistEntry.content =
      turns.map Prod.snd := by
  have h := runConv_hist turns (initializeConversation callId now0) hok
  refine ⟨?_, ?_, ?_⟩
  · have := h.2.2
    simpa [initializeConversation] using this
  · have := h.1
    simpa [initializeConversation] using this
  · have := h.2.1
    simpa [initializeConversation] using this

/-- Witness for C8 on the eight-turn happy-path run ending completed. -/
theorem C8_witness :
    turnsOK (initializeConversation "call_w" 0) wTurns = true ∧
    (runConv (initializeConversation "call_w" 0) wTurns).step =
      "completed" ∧
    ((runConv (initializeConversation "call_w" 0)
        wTurns).conversationHistory.length = 2 * wTurns.length ∧
    (runConv (initializeConversation "call_w" 0)
        wTurns).conversationHistory.map HistEntry.role =
      (List.replicate wTurns.length ["user", "agent"]).flatten ∧
    ((runConv (initializeConversation "call_w" 0)
        wTurns).conversationHistory.filter
        (fun e => e.role == "user")).map HistEntry.content =
      wTurns.map Prod.snd) :=
  ⟨by decide, by decide,
   C8_history_round_trip "call_w" 0 wTurns (by decide) (by decide)⟩

/-- C9: an utterance containing 13/45/2024 matches the date pattern but
names no calendar date; detectDateSelection returns the non-null string
Invalid date rather than null or a normalized date, and the date_selection
handler accepts it, storing it as preferredDate and advancing the step. -/
theorem C9_invalid_date_stored :
    detectDateSelection "can I come on 13/45/2024 maybe" =
      some "Invalid date" ∧
    (processMessage envRun stateAtDate
        "can I come on 13/45/2024 maybe").1.preferredDate =
      some "Invalid date" ∧
    (processMessage envRun stateAtDate
        "can I come on 13/45/2024 maybe").1.step = "time_selection" := by
  decide

/-- C10: getAvailableProviders throws exactly when the provider-schedules
configuration misses charles_maddix or ava_suleiman, or misses dr_soto
while the appointment type is follow_up; with the default empty
configuration every call throws, so a recognized appointment-type
utterance at the appointment_type step ends in the generic error
response. -/
theorem C10_provider_config_required :
    (∀ (cfg : List (String × ProviderEntry)) (t : Option String),
      getAvailableProviders cfg t = none ↔
        (lookupEntry cfg "charles_maddix" = none ∨
         lookupEntry cfg "ava_suleiman" = none ∨
         (t = some "follow_up" ∧ lookupEntry cfg "dr_soto" = none))) ∧
    (∀ t : Option String, getAvailableProviders [] t = none) ∧
    (∀ (env : Env) (s : ConvState) (msg : String),
      env.providerSchedules = [] → s.step = "appointment_type" →
      (detectAppointmentType msg).isSome = true →
      (processMessage env s msg).2 = getErrorResponse) := by
  have hbase : ∀ t : Option String, getAvailableProviders [] t = none := by
    intro t
    unfold getAvailableProviders lookupEntry
    simp
  refine ⟨?_, hbase, ?_⟩
  · intro cfg t
    unfold getAvailableProviders
    cases h1 : lookupEntry cfg "charles_maddix" with
    | none => simp
    | some cm =>
      cases h2 : lookupEntry cfg "ava_suleiman" with
      | none => simp
      | some av =>
        dsimp only
        by_cases ht : t = some "follow_up"
        · cases h3 : lookupEntry cfg "dr_soto" with
          | none => simp [ht]
          | some ds => simp [ht]
        · simp [ht]
  · intro env s msg hcfg hstep hdet
    rcases Option.isSome_iff_exists.1 hdet with ⟨t, hdt⟩
    have hd : dispatchStep env (addToHistory env.now s "user" msg) msg =
        handleAppointmentType env (addToHistory env.now s "user" msg)
          msg := by
      unfold dispatchStep
      simp [hstep]
    unfold processMessage
    dsimp only
    rw [hd]
    unfold handleAppointmentType
    rw [hdt]
    dsimp only
    rw [hcfg, hbase (some t)]

/-- Witness for C10 with the default empty configuration at a concrete
appointment-type turn. -/
theorem C10_witness :
    getAvailableProviders [] (some "ketamine_consultation") = none ∧
    (processMessage envEmpty stateAtAppointmentType "ketamine").2 =
      getErrorResponse :=
  ⟨C10_provider_config_required.2.1 (some "ketamine_consultation"),
   C10_provider_config_required.2.2 envEmpty stateAtAppointmentType
     "ketamine" rfl rfl (by decide)⟩

end RetellIntakeQ
